import Mathlib

/-!
Verification of the `rustygetdata` Dirfile wrapper (`src/getdata.rs`).

The repository is a thin Rust wrapper around the external libgetdata C
library ("format engine").  The wrapper owns a raw `DIRFILE` pointer and
exposes `new`, `nfields`, `nframes`, `spf`, `field_type` and `get_data`.
We embed the wrapper code shallowly:

* Rust strings (`&str`, and the byte content of `CString` cells) are
  modelled as lists of byte values (`RStr`).  `CString::new` fails exactly
  when the bytes contain a `0` byte (`hasNul`), and a failing `expect`
  (a panic) is modelled by an `Option` result being `none`.
* The external engine calls (`gd_open`, `gd_nframes`, `gd_spf`,
  `gd_native_type`, `gd_getdata`) are an abstract `Engine` structure;
  `gd_getdata` writes in place into a caller buffer, so it is modelled per
  buffer-element carrier as a function from the initial buffer to the
  filled buffer.  The Rust std float parser `str::parse::<f64>` is likewise
  abstract (`rust_parse_f64`).
* `f64` values are modelled by an inductive carrier `F64`; the numeric
  semantics needed by the claims (Rust's integer `as f64` cast, which
  rounds to nearest, ties to even) is modelled exactly by `f64RoundNat`.
* The sequence of externally visible actions a wrapper method performs
  (engine calls, buffer allocations, logging) is modelled by parallel
  `...Events` definitions mirroring the same control flow.
-/

/-- A Rust string slice / byte string, as its list of byte values. -/
abbrev RStr : Type := List Nat

/-- `CString::new` on a Rust string fails (and the wrapper's `expect`
panics) exactly when the bytes contain a NUL byte. -/
def hasNul (s : RStr) : Bool := s.contains 0

/-!
Element-type tags.  The numeric values come from the generated bindings
module `getdata_bindings` (declared in `test_code/main.rs` but not present
under `src/`), which mirrors libgetdata's `gd_type_t` enumeration; only
their pairwise distinctness is relied on below.
-/

def GD_UINT8 : Nat := 0x001
def GD_INT8 : Nat := 0x021
def GD_UINT16 : Nat := 0x002
def GD_INT16 : Nat := 0x022
def GD_UINT32 : Nat := 0x004
def GD_INT32 : Nat := 0x024
def GD_UINT64 : Nat := 0x008
def GD_INT64 : Nat := 0x028
def GD_FLOAT32 : Nat := 0x084
def GD_FLOAT64 : Nat := 0x088
def GD_STRING : Nat := 0x401

/-- The eight integer element-type tags of the `get_data` match. -/
def intTags : List Nat :=
  [GD_UINT8, GD_INT8, GD_UINT16, GD_INT16, GD_UINT32, GD_INT32,
   GD_UINT64, GD_INT64]

/-- The ten numeric element-type tags (integers plus the two floats). -/
def numericTags : List Nat := intTags ++ [GD_FLOAT32, GD_FLOAT64]

/-- All element-type tags recognized by the `get_data` match. -/
def recognizedTags : List Nat := numericTags ++ [GD_STRING]

/-- Native storage width in bytes selected by a numeric tag
(0 for non-numeric tags). -/
def elemWidth (tag : Nat) : Nat :=
  if tag = GD_UINT8 ∨ tag = GD_INT8 then 1
  else if tag = GD_UINT16 ∨ tag = GD_INT16 then 2
  else if tag = GD_UINT32 ∨ tag = GD_INT32 ∨ tag = GD_FLOAT32 then 4
  else if tag = GD_UINT64 ∨ tag = GD_INT64 ∨ tag = GD_FLOAT64 then 8
  else 0

/-- Rust's `v as usize` on an `i64` value: reduce modulo `2 ^ 64`
(64-bit platform). -/
def i64ToUsize (v : Int) : Nat := (v % (2 : Int) ^ 64).toNat

/-!
Model of IEEE binary64 (`f64`) values as they arise in this program.
Different constructors keep different provenances apart; no claim
compares values across provenances.
-/

/-- A binary32 (`f32`) value, identified by its 32-bit pattern. -/
abbrev F32 : Type := Nat

/-- Model of an `f64` value. -/
inductive F64 : Type where
  /-- A finite double whose exact mathematical value is the integer `v`
  (results of integer `as f64` casts and the literal `0.0`). -/
  | ofInt : Int → F64
  /-- The exact widening of the binary32 value `x` (lossless). -/
  | ofF32 : F32 → F64
  /-- A double identified by its 64-bit pattern (raw `FLOAT64` samples;
  `0.0f64` has bit pattern 0). -/
  | ofBits : Nat → F64
  deriving DecidableEq, Repr

/-- Round a natural number to 53 significant bits, ties to even: the exact
value of the binary64 nearest to `n`.  This is the semantics of Rust's
integer-to-`f64` `as` cast on the magnitude. -/
def f64RoundNat (n : Nat) : Nat :=
  if n ≤ 2 ^ 53 then n
  else
    let k := n.log2 - 52
    let q := n / 2 ^ k
    let r := n % 2 ^ k
    if 2 * r > 2 ^ k ∨ (2 * r = 2 ^ k ∧ q % 2 = 1) then (q + 1) * 2 ^ k
    else q * 2 ^ k

/-- Rust's `v as f64` on an integer value `v` (any of the eight integer
sample types): round the magnitude to the nearest binary64, ties to
even. -/
def intAsF64 (v : Int) : F64 :=
  if 0 ≤ v then F64.ofInt (f64RoundNat v.toNat)
  else F64.ofInt (-(f64RoundNat (-v).toNat : Int))

/-!
UTF-8 validity of a byte sequence, as checked by Rust's
`CString::into_string` (via `String::from_utf8`).  Standard UTF-8 DFA:
state 0 is the start state; states 1..7 encode how many continuation
bytes remain and the constrained range of the next byte after the lead
bytes E0, ED, F0, F4.
-/

/-- A UTF-8 continuation byte. -/
def contByte (b : Nat) : Bool := 0x80 ≤ b && b ≤ 0xBF

/-- One step of the UTF-8 acceptance automaton: `none` rejects. -/
def utf8Next (st b : Nat) : Option Nat :=
  match st with
  | 0 =>
    if b ≤ 0x7F then some 0
    else if 0xC2 ≤ b && b ≤ 0xDF then some 1
    else if b = 0xE0 then some 3
    else if b = 0xED then some 4
    else if 0xE1 ≤ b && b ≤ 0xEF then some 2
    else if b = 0xF0 then some 6
    else if b = 0xF4 then some 7
    else if 0xF1 ≤ b && b ≤ 0xF3 then some 5
    else none
  | 1 => if contByte b then some 0 else none
  | 2 => if contByte b then some 1 else none
  | 3 => if 0xA0 ≤ b && b ≤ 0xBF then some 1 else none
  | 4 => if 0x80 ≤ b && b ≤ 0x9F then some 1 else none
  | 5 => if contByte b then some 2 else none
  | 6 => if 0x90 ≤ b && b ≤ 0xBF then some 2 else none
  | 7 => if 0x80 ≤ b && b ≤ 0x8F then some 2 else none
  | _ => none

/-- Run the UTF-8 automaton from state `st`. -/
def validUtf8Aux (st : Nat) : List Nat → Bool
  | [] => st = 0
  | b :: rest =>
    match utf8Next st b with
    | some st2 => validUtf8Aux st2 rest
    | none => false

/-- Whether a byte sequence is valid UTF-8, i.e. whether
`CString::into_string` succeeds on a cell with these bytes. -/
def validUtf8 (l : List Nat) : Bool := validUtf8Aux 0 l

/-!
The format engine.  Each function takes the `DIRFILE` pointer value the
wrapper stores (modelled as a `Nat`, 0 playing the role of null).
`gd_getdata` fills a caller buffer in place, so per element carrier it
maps the initial buffer to the filled buffer; the C memory model
guarantees the buffer length cannot change, which theorems take as an
explicit hypothesis where they need it.
-/

structure Engine : Type where
  /-- `gd_open(path, GD_RDONLY)`: the returned `DIRFILE` pointer. -/
  gd_open : RStr → Nat
  /-- `gd_nfields(D)`. -/
  gd_nfields : Nat → Nat
  /-- `gd_nframes(D)`: an `i64` count. -/
  gd_nframes : Nat → Int
  /-- `gd_spf(D, field)`: a `u32` count. -/
  gd_spf : Nat → RStr → Nat
  /-- `gd_native_type(D, field)`: the element-type tag. -/
  gd_native_type : Nat → RStr → Nat
  /-- `gd_getdata` with an integer return type: `(D, tag, field, buf)`. -/
  gd_getdata_int : Nat → Nat → RStr → List Int → List Int
  /-- `gd_getdata` with return type `GD_FLOAT32`. -/
  gd_getdata_f32 : Nat → RStr → List F32 → List F32
  /-- `gd_getdata` with return type `GD_FLOAT64`. -/
  gd_getdata_f64 : Nat → RStr → List F64 → List F64
  /-- `gd_getdata` with return type `GD_STRING`: cells are `CString`
  byte contents. -/
  gd_getdata_str : Nat → RStr → List RStr → List RStr
  /-- Rust std `str::parse::<f64>` (external to the repository). -/
  rust_parse_f64 : RStr → Option F64

/-- The wrapper struct: owns the raw `DIRFILE` pointer. -/
structure Dirfile : Type where
  dirfile_open : Nat
  deriving DecidableEq

/-- `Dirfile::new(path)`: `CString::new(path).expect(..)` panics on a NUL
byte (`none`); otherwise the handle wraps whatever pointer `gd_open`
returned, with no validity check. -/
def Dirfile.new (E : Engine) (path : RStr) : Option Dirfile :=
  if hasNul path then none
  else some { dirfile_open := E.gd_open path }

/-- `Dirfile::nfields`. -/
def Dirfile.nfields (E : Engine) (self : Dirfile) : Nat :=
  E.gd_nfields self.dirfile_open

/-- `Dirfile::nframes`. -/
def Dirfile.nframes (E : Engine) (self : Dirfile) : Int :=
  E.gd_nframes self.dirfile_open

/-- `Dirfile::spf(field)`: panics (`none`) iff the field name contains a
NUL byte; otherwise calls `gd_spf`. -/
def Dirfile.spf (E : Engine) (self : Dirfile) (field : RStr) : Option Nat :=
  if hasNul field then none
  else some (E.gd_spf self.dirfile_open field)

/-- `Dirfile::field_type(field)`: panics (`none`) iff the field name
contains a NUL byte; otherwise calls `gd_native_type`. -/
def Dirfile.field_type (E : Engine) (self : Dirfile) (field : RStr) :
    Option Nat :=
  if hasNul field then none
  else some (E.gd_native_type self.dirfile_open field)

/-- `Dirfile::get_data(field)` from `src/getdata.rs`.

The three `CString::new(field).expect(..)` conversions (inside
`field_type`, inside `spf`, and in `get_data` itself) all panic exactly
when the field name contains a NUL byte; the first of them runs before
any engine call, so the whole call is modelled as `none` in that case.
Otherwise: resolve the tag, `nframes` and `spf`, compute
`total_samples = nframes * (spf as i64)` and cast it to `usize`, then
dispatch on the tag: allocate the zero-initialized buffer of the native
carrier (`vec![0u8; ..]`, …, `vec![0.0f64; ..]`,
`vec![CString::new("").unwrap(); ..]`), let `gd_getdata` fill it, and
convert per element (`v as f64` for integers and `f32`, pass-through for
`f64`, and for strings `into_string().ok()` filtering followed by
`parse::<f64>().unwrap_or(0.0)`).  An unrecognized tag is logged and
yields the empty vector. -/
def Dirfile.get_data (E : Engine) (self : Dirfile) (field : RStr) :
    Option (List F64) :=
  if hasNul field then none
  else
    let p := self.dirfile_open
    let tag := E.gd_native_type p field
    let nfr := E.gd_nframes p
    let s := E.gd_spf p field
    let total := i64ToUsize (nfr * (s : Int))
    if tag = GD_UINT8 then
      some ((E.gd_getdata_int p GD_UINT8 field (List.replicate total 0)).map intAsF64)
    else if tag = GD_INT8 then
      some ((E.gd_getdata_int p GD_INT8 field (List.replicate total 0)).map intAsF64)
    else if tag = GD_UINT16 then
      some ((E.gd_getdata_int p GD_UINT16 field (List.replicate total 0)).map intAsF64)
    else if tag = GD_INT16 then
      some ((E.gd_getdata_int p GD_INT16 field (List.replicate total 0)).map intAsF64)
    else if tag = GD_UINT32 then
      some ((E.gd_getdata_int p GD_UINT32 field (List.replicate total 0)).map intAsF64)
    else if tag = GD_INT32 then
      some ((E.gd_getdata_int p GD_INT32 field (List.replicate total 0)).map intAsF64)
    else if tag = GD_UINT64 then
      some ((E.gd_getdata_int p GD_UINT64 field (List.replicate total 0)).map intAsF64)
    else if tag = GD_INT64 then
      some ((E.gd_getdata_int p GD_INT64 field (List.replicate total 0)).map intAsF64)
    else if tag = GD_FLOAT32 then
      some ((E.gd_getdata_f32 p field (List.replicate total 0)).map F64.ofF32)
    else if tag = GD_FLOAT64 then
      some (E.gd_getdata_f64 p field (List.replicate total (F64.ofBits 0)))
    else if tag = GD_STRING then
      some (((E.gd_getdata_str p field (List.replicate total ([] : RStr))).filterMap
          (fun c => if validUtf8 c then some c else none)).map
        (fun s => (E.rust_parse_f64 s).getD (F64.ofInt 0)))
    else
      some []

/-!
Externally visible actions of the wrapper methods: engine calls, buffer
allocations and log output, in program order.  Each `...Events`
definition mirrors the control flow of the corresponding method; a panic
(NUL byte in a name) happens at the `CString` conversion, before any
engine call, so those traces are empty.
-/

inductive Event : Type where
  /-- A `gd_open` call. -/
  | gdOpen : Event
  /-- A `gd_nfields` call. -/
  | gdNfields : Event
  /-- A `gd_nframes` call. -/
  | gdNframes : Event
  /-- A `gd_spf` call. -/
  | gdSpf : Event
  /-- A `gd_native_type` call. -/
  | gdNativeType : Event
  /-- Allocation of a zero-initialized numeric buffer of `count` elements
  of `elemBytes` bytes each (`vec![0; total_samples]`). -/
  | allocZeroed (elemBytes : Nat) (count : Nat) : Event
  /-- Allocation of a buffer of `count` empty `CString` cells. -/
  | allocStrCells (count : Nat) : Event
  /-- A `gd_getdata` call with the given `num_frames`, `num_samples` and
  return-type arguments. -/
  | gdGetdata (numFrames numSamples retTag : Nat) : Event
  /-- The `println!` reporting an unknown field type. -/
  | logUnknown (tag : Nat) : Event
  /-- A `gd_close` call (libgetdata's release operation; listed so traces
  can state whether it ever occurs). -/
  | gdClose : Event
  deriving DecidableEq, Repr

/-- Whether an event is the engine's release operation. -/
def Event.isClose : Event → Bool
  | Event.gdClose => true
  | _ => false

/-- Actions of `Dirfile::new`. -/
def Dirfile.newEvents (path : RStr) : List Event :=
  if hasNul path then [] else [Event.gdOpen]

/-- Actions of `Dirfile::spf`. -/
def Dirfile.spfEvents (field : RStr) : List Event :=
  if hasNul field then [] else [Event.gdSpf]

/-- Actions of `Dirfile::field_type`. -/
def Dirfile.fieldTypeEvents (field : RStr) : List Event :=
  if hasNul field then [] else [Event.gdNativeType]

/-- Actions of `Dirfile::get_data`, in program order: the tag lookup, the
frame count, the samples-per-frame lookup, then — per recognized tag —
the zero-initialized allocation at the native width followed by the
`gd_getdata` fill (called with `nframes as usize` frames and
`samples_per_frame as usize` samples at the matching return type); an
unrecognized tag only logs. -/
def Dirfile.getDataEvents (E : Engine) (self : Dirfile) (field : RStr) :
    List Event :=
  if hasNul field then []
  else
    let p := self.dirfile_open
    let tag := E.gd_native_type p field
    let nfr := E.gd_nframes p
    let s := E.gd_spf p field
    let total := i64ToUsize (nfr * (s : Int))
    [Event.gdNativeType, Event.gdNframes, Event.gdSpf] ++
      (if tag = GD_UINT8 then
        [Event.allocZeroed 1 total, Event.gdGetdata (i64ToUsize nfr) s tag]
      else if tag = GD_INT8 then
        [Event.allocZeroed 1 total, Event.gdGetdata (i64ToUsize nfr) s tag]
      else if tag = GD_UINT16 then
        [Event.allocZeroed 2 total, Event.gdGetdata (i64ToUsize nfr) s tag]
      else if tag = GD_INT16 then
        [Event.allocZeroed 2 total, Event.gdGetdata (i64ToUsize nfr) s tag]
      else if tag = GD_UINT32 then
        [Event.allocZeroed 4 total, Event.gdGetdata (i64ToUsize nfr) s tag]
      else if tag = GD_INT32 then
        [Event.allocZeroed 4 total, Event.gdGetdata (i64ToUsize nfr) s tag]
      else if tag = GD_UINT64 then
        [Event.allocZeroed 8 total, Event.gdGetdata (i64ToUsize nfr) s tag]
      else if tag = GD_INT64 then
        [Event.allocZeroed 8 total, Event.gdGetdata (i64ToUsize nfr) s tag]
      else if tag = GD_FLOAT32 then
        [Event.allocZeroed 4 total, Event.gdGetdata (i64ToUsize nfr) s tag]
      else if tag = GD_FLOAT64 then
        [Event.allocZeroed 8 total, Event.gdGetdata (i64ToUsize nfr) s tag]
      else if tag = GD_STRING then
        [Event.allocStrCells total, Event.gdGetdata (i64ToUsize nfr) s tag]
      else
        [Event.logUnknown tag])

/-- Actions at `Dirfile` destruction: the struct holds a raw pointer and
the source defines no `Drop` implementation, so dropping the handle
performs no engine call at all. -/
def Dirfile.dropEvents : List Event := []

/-- All externally visible actions over a whole handle lifetime: open a
path, perform the given sequence of `get_data` fetches, then drop the
handle. -/
def handleLifetime (E : Engine) (path : RStr) (fetches : List RStr) :
    List Event :=
  Dirfile.newEvents path ++
    (fetches.flatMap fun f =>
      Dirfile.getDataEvents E { dirfile_open := E.gd_open path } f) ++
    Dirfile.dropEvents

/-!
Concrete engines used to witness the theorems and to exhibit
counterexamples.  Field names are arbitrary byte strings.
-/

/-- A field whose declared type is `GD_UINT8`. -/
def fieldU8 : RStr := [117]

/-- A field whose declared type is `GD_FLOAT64`. -/
def fieldF64 : RStr := [100]

/-- A field whose declared type is `GD_STRING`. -/
def fieldStr : RStr := [115]

/-- A field with an unrecognized declared type. -/
def fieldUnk : RStr := [120]

/-- A small concrete engine: 2 frames, 1 sample per frame; integer fields
read as the constant 7, `FLOAT64` fields as a fixed bit pattern, string
cells as the text "5" which parses to 5.0. -/
def testEngine : Engine where
  gd_open := fun _ => 1
  gd_nfields := fun _ => 3
  gd_nframes := fun _ => 2
  gd_spf := fun _ _ => 1
  gd_native_type := fun _ f =>
    if f = fieldU8 then GD_UINT8
    else if f = fieldF64 then GD_FLOAT64
    else if f = fieldStr then GD_STRING
    else 9999
  gd_getdata_int := fun _ _ _ buf => buf.map fun _ => 7
  gd_getdata_f32 := fun _ _ buf => buf
  gd_getdata_f64 := fun _ _ buf => buf.map fun _ => F64.ofBits 42
  gd_getdata_str := fun _ _ buf => buf.map fun _ => [53]
  rust_parse_f64 := fun s => if s = [53] then some (F64.ofInt 5) else none

/-- An engine whose single string field has 1 frame × 1 sample and whose
fill writes every requested cell, filling the one cell with the single
byte `0xFF` — which is not valid UTF-8. -/
def badStrEngine : Engine where
  gd_open := fun _ => 1
  gd_nfields := fun _ => 1
  gd_nframes := fun _ => 1
  gd_spf := fun _ _ => 1
  gd_native_type := fun _ _ => GD_STRING
  gd_getdata_int := fun _ _ _ buf => buf
  gd_getdata_f32 := fun _ _ buf => buf
  gd_getdata_f64 := fun _ _ buf => buf
  gd_getdata_str := fun _ _ buf => buf.map fun _ => [255]
  rust_parse_f64 := fun _ => none

/-- Per-tag exactness range for integer samples: for the six integer tags
of width at most 32 bits this is the whole range of the sample type; for
the 64-bit tags it is the magnitude bound `2 ^ 53`.  (Any other tag:
`false`.) -/
def inExactRange (tag : Nat) (v : Int) : Bool :=
  if tag = GD_UINT8 then decide (0 ≤ v ∧ v < 256)
  else if tag = GD_INT8 then decide (-128 ≤ v ∧ v < 128)
  else if tag = GD_UINT16 then decide (0 ≤ v ∧ v < 65536)
  else if tag = GD_INT16 then decide (-32768 ≤ v ∧ v < 32768)
  else if tag = GD_UINT32 then decide (0 ≤ v ∧ v < 4294967296)
  else if tag = GD_INT32 then decide (-2147483648 ≤ v ∧ v < 2147483648)
  else if tag = GD_UINT64 then decide (0 ≤ v ∧ v ≤ 9007199254740992)
  else if tag = GD_INT64 then decide (-9007199254740992 ≤ v ∧ v ≤ 9007199254740992)
  else false

/-- `total_samples = nframes * (samples_per_frame as i64)`, cast to
`usize`, as computed by `get_data`. -/
def totalSamples (E : Engine) (d : Dirfile) (f : RStr) : Nat :=
  i64ToUsize (E.gd_nframes d.dirfile_open * (E.gd_spf d.dirfile_open f : Int))

/-!
Proof infrastructure: the observations `get_data` makes of the engine at
one handle and field, packaged as a record, with `let`-free re-statements
of `get_data` and `getDataEvents` over it (definitionally equal to the
originals; used for congruence and case analyses).
-/

structure FieldView : Type where
  /-- The field's declared element-type tag. -/
  tag : Nat
  /-- The dirfile's frame count. -/
  nframes : Int
  /-- The field's samples per frame. -/
  spf : Nat
  /-- The integer fill at this handle and field. -/
  fillInt : Nat → List Int → List Int
  /-- The `FLOAT32` fill at this handle and field. -/
  fill32 : List F32 → List F32
  /-- The `FLOAT64` fill at this handle and field. -/
  fill64 : List F64 → List F64
  /-- The `STRING` fill at this handle and field. -/
  fillStr : List RStr → List RStr
  /-- The float parser. -/
  parse : RStr → Option F64

/-- The observations `get_data` makes of engine `E` at handle `self` and
field `field`. -/
def Dirfile.fieldView (E : Engine) (self : Dirfile) (field : RStr) :
    FieldView where
  tag := E.gd_native_type self.dirfile_open field
  nframes := E.gd_nframes self.dirfile_open
  spf := E.gd_spf self.dirfile_open field
  fillInt := fun t buf => E.gd_getdata_int self.dirfile_open t field buf
  fill32 := fun buf => E.gd_getdata_f32 self.dirfile_open field buf
  fill64 := fun buf => E.gd_getdata_f64 self.dirfile_open field buf
  fillStr := fun buf => E.gd_getdata_str self.dirfile_open field buf
  parse := E.rust_parse_f64

/-- `get_data` re-stated over a `FieldView` (first argument: whether the
name conversion panics). -/
def runField (nul : Bool) (v : FieldView) : Option (List F64) :=
  if nul then none
  else if v.tag = GD_UINT8 then
    some ((v.fillInt GD_UINT8
      (List.replicate (i64ToUsize (v.nframes * (v.spf : Int))) 0)).map intAsF64)
  else if v.tag = GD_INT8 then
    some ((v.fillInt GD_INT8
      (List.replicate (i64ToUsize (v.nframes * (v.spf : Int))) 0)).map intAsF64)
  else if v.tag = GD_UINT16 then
    some ((v.fillInt GD_UINT16
      (List.replicate (i64ToUsize (v.nframes * (v.spf : Int))) 0)).map intAsF64)
  else if v.tag = GD_INT16 then
    some ((v.fillInt GD_INT16
      (List.replicate (i64ToUsize (v.nframes * (v.spf : Int))) 0)).map intAsF64)
  else if v.tag = GD_UINT32 then
    some ((v.fillInt GD_UINT32
      (List.replicate (i64ToUsize (v.nframes * (v.spf : Int))) 0)).map intAsF64)
  else if v.tag = GD_INT32 then
    some ((v.fillInt GD_INT32
      (List.replicate (i64ToUsize (v.nframes * (v.spf : Int))) 0)).map intAsF64)
  else if v.tag = GD_UINT64 then
    some ((v.fillInt GD_UINT64
      (List.replicate (i64ToUsize (v.nframes * (v.spf : Int))) 0)).map intAsF64)
  else if v.tag = GD_INT64 then
    some ((v.fillInt GD_INT64
      (List.replicate (i64ToUsize (v.nframes * (v.spf : Int))) 0)).map intAsF64)
  else if v.tag = GD_FLOAT32 then
    some ((v.fill32
      (List.replicate (i64ToUsize (v.nframes * (v.spf : Int))) 0)).map F64.ofF32)
  else if v.tag = GD_FLOAT64 then
    some (v.fill64
      (List.replicate (i64ToUsize (v.nframes * (v.spf : Int))) (F64.ofBits 0)))
  else if v.tag = GD_STRING then
    some (((v.fillStr
        (List.replicate (i64ToUsize (v.nframes * (v.spf : Int))) ([] : RStr))).filterMap
        (fun c => if validUtf8 c then some c else none)).map
      fun s => (v.parse s).getD (F64.ofInt 0))
  else
    some []

/-- `getDataEvents` re-stated over a `FieldView`. -/
def runEvents (nul : Bool) (v : FieldView) : List Event :=
  if nul then []
  else
    [Event.gdNativeType, Event.gdNframes, Event.gdSpf] ++
      (if v.tag = GD_UINT8 then
        [Event.allocZeroed 1 (i64ToUsize (v.nframes * (v.spf : Int))),
         Event.gdGetdata (i64ToUsize v.nframes) v.spf v.tag]
      else if v.tag = GD_INT8 then
        [Event.allocZeroed 1 (i64ToUsize (v.nframes * (v.spf : Int))),
         Event.gdGetdata (i64ToUsize v.nframes) v.spf v.tag]
      else if v.tag = GD_UINT16 then
        [Event.allocZeroed 2 (i64ToUsize (v.nframes * (v.spf : Int))),
         Event.gdGetdata (i64ToUsize v.nframes) v.spf v.tag]
      else if v.tag = GD_INT16 then
        [Event.allocZeroed 2 (i64ToUsize (v.nframes * (v.spf : Int))),
         Event.gdGetdata (i64ToUsize v.nframes) v.spf v.tag]
      else if v.tag = GD_UINT32 then
        [Event.allocZeroed 4 (i64ToUsize (v.nframes * (v.spf : Int))),
         Event.gdGetdata (i64ToUsize v.nframes) v.spf v.tag]
      else if v.tag = GD_INT32 then
        [Event.allocZeroed 4 (i64ToUsize (v.nframes * (v.spf : Int))),
         Event.gdGetdata (i64ToUsize v.nframes) v.spf v.tag]
      else if v.tag = GD_UINT64 then
        [Event.allocZeroed 8 (i64ToUsize (v.nframes * (v.spf : Int))),
         Event.gdGetdata (i64ToUsize v.nframes) v.spf v.tag]
      else if v.tag = GD_INT64 then
        [Event.allocZeroed 8 (i64ToUsize (v.nframes * (v.spf : Int))),
         Event.gdGetdata (i64ToUsize v.nframes) v.spf v.tag]
      else if v.tag = GD_FLOAT32 then
        [Event.allocZeroed 4 (i64ToUsize (v.nframes * (v.spf : Int))),
         Event.gdGetdata (i64ToUsize v.nframes) v.spf v.tag]
      else if v.tag = GD_FLOAT64 then
        [Event.allocZeroed 8 (i64ToUsize (v.nframes * (v.spf : Int))),
         Event.gdGetdata (i64ToUsize v.nframes) v.spf v.tag]
      else if v.tag = GD_STRING then
        [Event.allocStrCells (i64ToUsize (v.nframes * (v.spf : Int))),
         Event.gdGetdata (i64ToUsize v.nframes) v.spf v.tag]
      else
        [Event.logUnknown v.tag])

/-!
Helper lemmas.
-/

/-- Below `2 ^ 53` (inclusive), rounding to 53 significant bits is the
identity. -/
theorem f64RoundNat_of_le {n : Nat} (h : n ≤ 2 ^ 53) : f64RoundNat n = n := by
  unfold f64RoundNat
  exact if_pos h

/-- Rust's integer-to-`f64` cast is exact on values of magnitude at most
`2 ^ 53 = 9007199254740992`. -/
theorem intAsF64_exact {v : Int} (h1 : -9007199254740992 ≤ v)
    (h2 : v ≤ 9007199254740992) : intAsF64 v = F64.ofInt v := by
  unfold intAsF64
  by_cases h0 : 0 ≤ v
  · rw [if_pos h0, f64RoundNat_of_le (by omega)]
    congr 1
    omega
  · rw [if_neg h0, f64RoundNat_of_le (by omega)]
    congr 1
    omega

/-- Filtering through an `Option`-guard is plain filtering. -/
theorem filterMap_guard_eq_filter (p : RStr → Bool) (l : List RStr) :
    (l.filterMap fun c => if p c then some c else none) = l.filter p := by
  induction l with
  | nil => rfl
  | cons a l ih =>
    by_cases h : p a <;> simp [List.filterMap_cons, List.filter_cons, h, ih]

/-- The `i64`-to-`usize` cast is value-preserving on `[0, 2 ^ 64)`. -/
theorem i64ToUsize_eq_toNat {v : Int} (h0 : 0 ≤ v) (h1 : v < 2 ^ 64) :
    i64ToUsize v = v.toNat := by
  unfold i64ToUsize
  omega

/-- Every in-range sample value has magnitude at most `2 ^ 53`. -/
theorem inExactRange_bound {tag : Nat} {v : Int}
    (h : inExactRange tag v = true) :
    -9007199254740992 ≤ v ∧ v ≤ 9007199254740992 := by
  unfold inExactRange at h
  split at h <;> [skip; split at h] <;> first
    | (simp at h; omega)
    | (repeat' split at h) <;> first | (simp at h; omega) | simp at h

/-- `get_data` computes exactly `runField` of the panic flag and the
field view (definitional). -/
theorem get_data_eq_runField (E : Engine) (d : Dirfile) (f : RStr) :
    Dirfile.get_data E d f = runField (hasNul f) (Dirfile.fieldView E d f) :=
  rfl

/-- `getDataEvents` computes exactly `runEvents` of the panic flag and
the field view (definitional). -/
theorem getDataEvents_eq_runEvents (E : Engine) (d : Dirfile) (f : RStr) :
    Dirfile.getDataEvents E d f =
      runEvents (hasNul f) (Dirfile.fieldView E d f) :=
  rfl

/-- A property satisfied by both branches holds of the conditional. -/
theorem prop_ite {α : Type} (P : α → Prop) (c : Prop) [Decidable c]
    (a b : α) (ha : P a) (hb : P b) : P (if c then a else b) := by
  split
  · exact ha
  · exact hb

/-- No branch of `runEvents` ever emits the engine's release call. -/
theorem runEvents_countP_isClose (nul : Bool) (v : FieldView) :
    (runEvents nul v).countP Event.isClose = 0 := by
  unfold runEvents
  refine prop_ite (fun l : List Event => l.countP Event.isClose = 0) _ _ _ rfl ?_
  show List.countP Event.isClose
    ([Event.gdNativeType, Event.gdNframes, Event.gdSpf] ++ _) = 0
  rw [List.countP_append]
  rw [show List.countP Event.isClose
    [Event.gdNativeType, Event.gdNframes, Event.gdSpf] = 0 from rfl]
  rw [Nat.zero_add]
  repeat' refine prop_ite (fun l : List Event => l.countP Event.isClose = 0) _ _ _ rfl ?_
  rfl

/-- Every branch of `runField` with the panic flag off returns a value. -/
theorem runField_false_isSome (v : FieldView) :
    (runField false v).isSome = true := by
  unfold runField
  rw [if_neg (by decide : ¬((false : Bool) = true))]
  repeat' refine prop_ite (fun o : Option (List F64) => o.isSome = true) _ _ _ rfl ?_
  rfl

/-- C2: for a `FLOAT64` field, `get_data` returns exactly the raw filled
buffer — the list of stored double-precision samples — with no conversion
applied to any element. -/
theorem get_data_float64_passthrough (E : Engine) (d : Dirfile) (f : RStr)
    (hn : hasNul f = false)
    (ht : E.gd_native_type d.dirfile_open f = GD_FLOAT64) :
    Dirfile.get_data E d f =
      some (E.gd_getdata_f64 d.dirfile_open f
        (List.replicate (totalSamples E d f) (F64.ofBits 0))) := by
  simp [Dirfile.get_data, totalSamples, hn, ht, GD_UINT8, GD_INT8,
    GD_UINT16, GD_INT16, GD_UINT32, GD_INT32, GD_UINT64, GD_INT64,
    GD_FLOAT32, GD_FLOAT64, GD_STRING]

/-- C2 witness: on the concrete `testEngine`, the `FLOAT64` field's two
raw samples come back unchanged. -/
theorem get_data_float64_passthrough_witness :
    hasNul fieldF64 = false ∧
      Dirfile.get_data testEngine ⟨1⟩ fieldF64 =
        some [F64.ofBits 42, F64.ofBits 42] := by
  refine ⟨by decide, ?_⟩
  have h := get_data_float64_passthrough testEngine ⟨1⟩ fieldF64
    (by decide) (by decide)
  rw [h]
  decide

/-- C3: for every integer field (any of the eight integer tags), when
every raw sample lies in the exactness range of its tag — the full type
range for widths up to 32 bits, magnitude at most `2 ^ 53` for the
64-bit tags — `get_data` returns exactly the mathematical values of the
raw samples, with no rounding. -/
theorem get_data_int_exact (E : Engine) (d : Dirfile) (f : RStr)
    (hn : hasNul f = false)
    (htag : E.gd_native_type d.dirfile_open f ∈ intTags)
    (hr : ∀ v ∈ E.gd_getdata_int d.dirfile_open
          (E.gd_native_type d.dirfile_open f) f
          (List.replicate (totalSamples E d f) 0),
        inExactRange (E.gd_native_type d.dirfile_open f) v = true) :
    Dirfile.get_data E d f =
      some ((E.gd_getdata_int d.dirfile_open
        (E.gd_native_type d.dirfile_open f) f
        (List.replicate (totalSamples E d f) 0)).map F64.ofInt) := by
  have hmap : ∀ (l : List Int),
      (∀ v ∈ l, inExactRange (E.gd_native_type d.dirfile_open f) v = true) →
      l.map intAsF64 = l.map F64.ofInt := by
    intro l hl
    refine List.map_congr_left fun v hv => ?_
    obtain ⟨h1, h2⟩ := inExactRange_bound (hl v hv)
    exact intAsF64_exact h1 h2
  simp only [intTags, List.mem_cons, List.not_mem_nil, or_false] at htag
  rcases htag with h|h|h|h|h|h|h|h <;>
    (rw [show Dirfile.get_data E d f =
        some ((E.gd_getdata_int d.dirfile_open
          (E.gd_native_type d.dirfile_open f) f
          (List.replicate (totalSamples E d f) 0)).map intAsF64) from ?_,
      hmap _ hr]
     simp [Dirfile.get_data, totalSamples, hn, h, GD_UINT8, GD_INT8,
       GD_UINT16, GD_INT16, GD_UINT32, GD_INT32, GD_UINT64, GD_INT64,
       GD_FLOAT32, GD_FLOAT64, GD_STRING])

/-- C3 witness: on the concrete `testEngine`, the `UINT8` field's two raw
samples (both 7) come back as exactly 7. -/
theorem get_data_int_exact_witness :
    testEngine.gd_native_type 1 fieldU8 ∈ intTags ∧
      Dirfile.get_data testEngine ⟨1⟩ fieldU8 =
        some [F64.ofInt 7, F64.ofInt 7] := by
  refine ⟨by decide, ?_⟩
  have h := get_data_int_exact testEngine ⟨1⟩ fieldU8 (by decide)
    (by decide) (by decide)
  rw [h]
  decide

/-- C1 counterexample: on `badStrEngine` the single requested `STRING`
cell is genuinely filled (the fill writes every requested cell), with the
byte `0xFF`, which is not valid UTF-8; `get_data` then returns the empty
vector although `frame_count * samples_per_frame = 1`, so the length
property fails for `STRING` fields. -/
theorem get_data_length_string_cex :
    badStrEngine.gd_getdata_str 1 fieldStr (List.replicate 1 ([] : RStr)) =
        [[255]] ∧
      validUtf8 [255] = false ∧
      Dirfile.get_data badStrEngine ⟨1⟩ fieldStr = some [] ∧
      totalSamples badStrEngine ⟨1⟩ fieldStr = 1 ∧
      ¬((Dirfile.get_data badStrEngine ⟨1⟩ fieldStr).map List.length =
        some (totalSamples badStrEngine ⟨1⟩ fieldStr)) := by
  decide

/-- C1 (amended): provided the engine's fill writes in place (so the
buffer length is preserved, as the C memory model guarantees), `get_data`
returns a vector of length exactly `frame_count * samples_per_frame` for
the ten numeric tags; for `STRING` the length is the number of filled
cells whose bytes are valid UTF-8 — which equals the total only when
every filled cell is valid UTF-8 text. -/
theorem get_data_length_amended (E : Engine) (d : Dirfile) (f : RStr)
    (hn : hasNul f = false)
    (hlenI : ∀ t buf,
      (E.gd_getdata_int d.dirfile_open t f buf).length = buf.length)
    (hlen32 : ∀ buf,
      (E.gd_getdata_f32 d.dirfile_open f buf).length = buf.length)
    (hlen64 : ∀ buf,
      (E.gd_getdata_f64 d.dirfile_open f buf).length = buf.length) :
    (E.gd_native_type d.dirfile_open f ∈ numericTags →
      (Dirfile.get_data E d f).map List.length =
        some (totalSamples E d f)) ∧
    (E.gd_native_type d.dirfile_open f = GD_STRING →
      (Dirfile.get_data E d f).map List.length =
        some ((E.gd_getdata_str d.dirfile_open f
          (List.replicate (totalSamples E d f) ([] : RStr))).countP
            validUtf8)) := by
  constructor
  · intro htag
    simp only [numericTags, intTags, List.mem_append, List.mem_cons,
      List.not_mem_nil, or_false] at htag
    rcases htag with (h|h|h|h|h|h|h|h)|(h|h) <;>
      simp [Dirfile.get_data, totalSamples, hn, h, GD_UINT8, GD_INT8,
        GD_UINT16, GD_INT16, GD_UINT32, GD_INT32, GD_UINT64, GD_INT64,
        GD_FLOAT32, GD_FLOAT64, GD_STRING, hlenI, hlen32, hlen64]
  · intro h
    simp [Dirfile.get_data, totalSamples, hn, h, GD_UINT8, GD_INT8,
      GD_UINT16, GD_INT16, GD_UINT32, GD_INT32, GD_UINT64, GD_INT64,
      GD_FLOAT32, GD_FLOAT64, GD_STRING, filterMap_guard_eq_filter,
      List.countP_eq_length_filter]

/-- C1 witness: on the concrete `testEngine` (2 frames × 1 sample), the
`UINT8` fetch has length exactly 2. -/
theorem get_data_length_amended_witness :
    testEngine.gd_native_type 1 fieldU8 ∈ numericTags ∧
      (Dirfile.get_data testEngine ⟨1⟩ fieldU8).map List.length =
        some (totalSamples testEngine ⟨1⟩ fieldU8) := by
  refine ⟨by decide, ?_⟩
  exact (get_data_length_amended testEngine ⟨1⟩ fieldU8 (by decide)
    (fun t buf => by simp [testEngine]) (fun buf => rfl)
    (fun buf => by simp [testEngine])).1 (by decide)

/-- C5 counterexample: on `badStrEngine` the single `STRING` cell is
filled with the non-UTF-8 byte `0xFF`; its conversion fails, yet the
output element is not `0.0` — the cell is dropped entirely and the
output is empty. -/
theorem get_data_string_dropped_cell_cex :
    Dirfile.get_data badStrEngine ⟨1⟩ fieldStr = some [] ∧
      validUtf8 [255] = false ∧
      Dirfile.get_data badStrEngine ⟨1⟩ fieldStr ≠ some [F64.ofInt 0] := by
  decide

/-- C5 (amended): for a `STRING` field the fetch always succeeds, and its
output is obtained cell by cell from the filled buffer: the cells that
decode as UTF-8 text are kept in order, each contributing its parsed
value when `parse::<f64>` succeeds and `0.0` when parsing fails; cells
that are not valid UTF-8 are dropped from the output rather than
defaulted. -/
theorem get_data_string_cells_amended (E : Engine) (d : Dirfile) (f : RStr)
    (hn : hasNul f = false)
    (ht : E.gd_native_type d.dirfile_open f = GD_STRING) :
    Dirfile.get_data E d f =
      some (((E.gd_getdata_str d.dirfile_open f
          (List.replicate (totalSamples E d f) ([] : RStr))).filter
            validUtf8).map
        fun s => (E.rust_parse_f64 s).getD (F64.ofInt 0)) := by
  simp [Dirfile.get_data, totalSamples, hn, ht, GD_UINT8, GD_INT8,
    GD_UINT16, GD_INT16, GD_UINT32, GD_INT32, GD_UINT64, GD_INT64,
    GD_FLOAT32, GD_FLOAT64, GD_STRING, filterMap_guard_eq_filter]

/-- C5 witness: on the concrete `testEngine` both string cells hold the
text "5", which parses exactly to 5. -/
theorem get_data_string_cells_amended_witness :
    testEngine.gd_native_type 1 fieldStr = GD_STRING ∧
      Dirfile.get_data testEngine ⟨1⟩ fieldStr =
        some [F64.ofInt 5, F64.ofInt 5] := by
  refine ⟨by decide, ?_⟩
  have h := get_data_string_cells_amended testEngine ⟨1⟩ fieldStr
    (by decide) (by decide)
  rw [h]
  decide

/-- C4: for a field whose declared type tag is outside the recognized
set, `get_data` returns the empty vector (it does not panic and never
returns a partial vector), and its action trace shows the condition is
logged while no buffer allocation and no engine fill happen. -/
theorem get_data_unknown_tag (E : Engine) (d : Dirfile) (f : RStr)
    (hn : hasNul f = false)
    (ht : E.gd_native_type d.dirfile_open f ∉ recognizedTags) :
    Dirfile.get_data E d f = some [] ∧
      Dirfile.getDataEvents E d f =
        [Event.gdNativeType, Event.gdNframes, Event.gdSpf,
         Event.logUnknown (E.gd_native_type d.dirfile_open f)] := by
  simp only [recognizedTags, numericTags, intTags, List.mem_append,
    List.mem_cons, List.not_mem_nil, or_false, not_or] at ht
  obtain ⟨⟨⟨h1, h2, h3, h4, h5, h6, h7, h8⟩, h9, h10⟩, h11⟩ := ht
  constructor <;>
    simp [Dirfile.get_data, Dirfile.getDataEvents, hn, h1, h2, h3, h4,
      h5, h6, h7, h8, h9, h10, h11]

/-- C4 witness: `testEngine` declares the unknown tag 9999 for
`fieldUnk`; the fetch is empty and only logged. -/
theorem get_data_unknown_tag_witness :
    testEngine.gd_native_type 1 fieldUnk ∉ recognizedTags ∧
      Dirfile.get_data testEngine ⟨1⟩ fieldUnk = some [] ∧
      Dirfile.getDataEvents testEngine ⟨1⟩ fieldUnk =
        [Event.gdNativeType, Event.gdNframes, Event.gdSpf,
         Event.logUnknown 9999] := by
  refine ⟨by decide, ?_⟩
  have h := get_data_unknown_tag testEngine ⟨1⟩ fieldUnk (by decide)
    (by decide)
  exact ⟨h.1, h.2⟩

/-- C6: for every recognized numeric tag, given that the frame count is
a non-negative `i64` and the product fits the positive `i64`/`usize`
range, `get_data` computes `total_samples = frame_count *
samples_per_frame` and — before the engine fill — allocates a
zero-initialized buffer of exactly `total_samples` elements at the tag's
native width, which is 1, 2, 4 or 8 bytes. -/
theorem get_data_alloc_geometry (E : Engine) (d : Dirfile) (f : RStr)
    (hn : hasNul f = false)
    (htag : E.gd_native_type d.dirfile_open f ∈ numericTags)
    (h0 : 0 ≤ E.gd_nframes d.dirfile_open)
    (hframes : E.gd_nframes d.dirfile_open < 2 ^ 63)
    (hfit : E.gd_nframes d.dirfile_open *
      (E.gd_spf d.dirfile_open f : Int) < 2 ^ 63) :
    Dirfile.getDataEvents E d f =
      [Event.gdNativeType, Event.gdNframes, Event.gdSpf,
       Event.allocZeroed (elemWidth (E.gd_native_type d.dirfile_open f))
         ((E.gd_nframes d.dirfile_open *
           (E.gd_spf d.dirfile_open f : Int)).toNat),
       Event.gdGetdata (E.gd_nframes d.dirfile_open).toNat
         (E.gd_spf d.dirfile_open f)
         (E.gd_native_type d.dirfile_open f)] ∧
      (elemWidth (E.gd_native_type d.dirfile_open f) = 1 ∨
       elemWidth (E.gd_native_type d.dirfile_open f) = 2 ∨
       elemWidth (E.gd_native_type d.dirfile_open f) = 4 ∨
       elemWidth (E.gd_native_type d.dirfile_open f) = 8) := by
  have hprod0 : 0 ≤ E.gd_nframes d.dirfile_open *
      (E.gd_spf d.dirfile_open f : Int) :=
    mul_nonneg h0 (Int.natCast_nonneg _)
  have e1 : i64ToUsize (E.gd_nframes d.dirfile_open *
      (E.gd_spf d.dirfile_open f : Int)) =
      (E.gd_nframes d.dirfile_open *
        (E.gd_spf d.dirfile_open f : Int)).toNat :=
    i64ToUsize_eq_toNat hprod0 (by omega)
  have e2 : i64ToUsize (E.gd_nframes d.dirfile_open) =
      (E.gd_nframes d.dirfile_open).toNat :=
    i64ToUsize_eq_toNat h0 (by omega)
  simp only [numericTags, intTags, List.mem_append, List.mem_cons,
    List.not_mem_nil, or_false] at htag
  rcases htag with (h|h|h|h|h|h|h|h)|(h|h) <;>
    (constructor <;>
      simp [Dirfile.getDataEvents, elemWidth, hn, h, e1, e2, GD_UINT8,
        GD_INT8, GD_UINT16, GD_INT16, GD_UINT32, GD_INT32, GD_UINT64,
        GD_INT64, GD_FLOAT32, GD_FLOAT64, GD_STRING])

/-- C6 witness: on `testEngine` (2 frames × 1 sample), the `UINT8` fetch
allocates 2 zeroed one-byte elements before the fill. -/
theorem get_data_alloc_geometry_witness :
    testEngine.gd_native_type 1 fieldU8 ∈ numericTags ∧
      Dirfile.getDataEvents testEngine ⟨1⟩ fieldU8 =
        [Event.gdNativeType, Event.gdNframes, Event.gdSpf,
         Event.allocZeroed 1 2, Event.gdGetdata 2 1 GD_UINT8] := by
  refine ⟨by decide, ?_⟩
  have h := (get_data_alloc_geometry testEngine ⟨1⟩ fieldU8 (by decide)
    (by decide) (by decide) (by decide) (by decide)).1
  rw [h]
  decide

/-- C7: `Dirfile::new` fails (panics) exactly when the path contains a
NUL byte; for any other path a handle is returned wrapping whatever
pointer the engine's open call produced, with engine-level failure not
distinguished from success. -/
theorem new_nul_iff (E : Engine) (path : RStr) :
    (Dirfile.new E path = none ↔ hasNul path = true) ∧
      (hasNul path = false →
        Dirfile.new E path = some { dirfile_open := E.gd_open path }) := by
  cases hcase : hasNul path <;> simp [Dirfile.new, hcase]

/-- C7 witness: a NUL-free path yields a handle (here wrapping pointer 1)
and a path containing a NUL byte fails. -/
theorem new_nul_iff_witness :
    Dirfile.new testEngine [108] = some ⟨1⟩ ∧
      Dirfile.new testEngine [108, 0] = none := by
  refine ⟨(new_nul_iff testEngine [108]).2 (by decide), ?_⟩
  exact (new_nul_iff testEngine [108, 0]).1.mpr (by decide)

set_option maxHeartbeats 1000000 in
/-- C8: `get_data` is a pure function of the dirfile state and the field
name: any two engines (or the same engine twice) whose observations at
the given handle and field agree — frame count, samples per frame,
declared type, the fill results on every buffer, and the float parser —
produce identical output vectors, so two consecutive fetches on the same
unmodified dirfile return identical vectors. -/
theorem get_data_deterministic (E1 E2 : Engine) (d1 d2 : Dirfile)
    (f : RStr)
    (hnfr : E1.gd_nframes d1.dirfile_open = E2.gd_nframes d2.dirfile_open)
    (hspf : E1.gd_spf d1.dirfile_open f = E2.gd_spf d2.dirfile_open f)
    (htype : E1.gd_native_type d1.dirfile_open f =
      E2.gd_native_type d2.dirfile_open f)
    (hfillI : ∀ t buf, E1.gd_getdata_int d1.dirfile_open t f buf =
      E2.gd_getdata_int d2.dirfile_open t f buf)
    (hfill32 : ∀ buf, E1.gd_getdata_f32 d1.dirfile_open f buf =
      E2.gd_getdata_f32 d2.dirfile_open f buf)
    (hfill64 : ∀ buf, E1.gd_getdata_f64 d1.dirfile_open f buf =
      E2.gd_getdata_f64 d2.dirfile_open f buf)
    (hfillS : ∀ buf, E1.gd_getdata_str d1.dirfile_open f buf =
      E2.gd_getdata_str d2.dirfile_open f buf)
    (hparse : E1.rust_parse_f64 = E2.rust_parse_f64) :
    Dirfile.get_data E1 d1 f = Dirfile.get_data E2 d2 f := by
  simp only [Dirfile.get_data]
  rw [hnfr, hspf, htype, hparse]
  simp only [hfillI, hfill32, hfill64, hfillS]

/-- C8 witness: two consecutive fetches of the `UINT8` field on the
unmodified `testEngine` are identical. -/
theorem get_data_deterministic_witness :
    Dirfile.get_data testEngine ⟨1⟩ fieldU8 =
      Dirfile.get_data testEngine ⟨1⟩ fieldU8 :=
  get_data_deterministic testEngine testEngine ⟨1⟩ ⟨1⟩ fieldU8 rfl rfl rfl
    (fun _ _ => rfl) (fun _ => rfl) (fun _ => rfl) (fun _ => rfl) rfl

/-- C9: over a whole handle lifetime — open, any number of fetches, then
destruction — the wrapper never issues the engine's release operation
`gd_close`: the `Dirfile` struct has no `Drop` implementation and no
method calls `gd_close`, so the underlying resource is released zero
times (it leaks), not exactly once as the specification requires. -/
theorem never_releases_engine_resource (E : Engine) (path : RStr)
    (fetches : List RStr) :
    (handleLifetime E path fetches).countP Event.isClose = 0 := by
  have hget : ∀ g : RStr,
      (Dirfile.getDataEvents E { dirfile_open := E.gd_open path } g).countP
        Event.isClose = 0 := by
    intro g
    rw [getDataEvents_eq_runEvents]
    exact runEvents_countP_isClose _ _
  have hflat : ∀ fs : List RStr,
      ((fs.flatMap fun g =>
        Dirfile.getDataEvents E { dirfile_open := E.gd_open path } g).countP
          Event.isClose) = 0 := by
    intro fs
    induction fs with
    | nil => rfl
    | cons a fs ih => rw [List.flatMap_cons, List.countP_append, hget, ih]
  have hnew : (Dirfile.newEvents path).countP Event.isClose = 0 := by
    unfold Dirfile.newEvents
    split <;> rfl
  unfold handleLifetime
  rw [List.countP_append, List.countP_append, hnew, hflat]
  rfl

/-- C10: each of `spf`, `field_type` and `get_data` panics at the
`CString` name conversion — before any engine call, as the empty action
traces show — exactly when the field name contains a NUL byte, and never
panics at that step otherwise. -/
theorem nul_field_name_panics (E : Engine) (d : Dirfile) (f : RStr) :
    (hasNul f = true →
      Dirfile.spf E d f = none ∧ Dirfile.field_type E d f = none ∧
        Dirfile.get_data E d f = none ∧ Dirfile.spfEvents f = [] ∧
        Dirfile.fieldTypeEvents f = [] ∧
        Dirfile.getDataEvents E d f = []) ∧
    (hasNul f = false →
      (Dirfile.spf E d f).isSome = true ∧
        (Dirfile.field_type E d f).isSome = true ∧
        (Dirfile.get_data E d f).isSome = true) := by
  constructor
  · intro h
    refine ⟨?_, ?_, ?_, ?_, ?_, ?_⟩
    · unfold Dirfile.spf
      rw [h]
      rfl
    · unfold Dirfile.field_type
      rw [h]
      rfl
    · unfold Dirfile.get_data
      rw [h]
      rfl
    · unfold Dirfile.spfEvents
      rw [h]
      rfl
    · unfold Dirfile.fieldTypeEvents
      rw [h]
      rfl
    · unfold Dirfile.getDataEvents
      rw [h]
      rfl
  · intro h
    refine ⟨by simp [Dirfile.spf, h], by simp [Dirfile.field_type, h], ?_⟩
    rw [get_data_eq_runField, h]
    exact runField_false_isSome _

/-- C10 witness: the name `[0]` (a NUL byte) makes all three operations
panic before any engine call, while the NUL-free name `fieldU8` panics in
none of them. -/
theorem nul_field_name_panics_witness :
    hasNul [0] = true ∧ Dirfile.get_data testEngine ⟨1⟩ [0] = none ∧
      Dirfile.getDataEvents testEngine ⟨1⟩ [0] = [] ∧
      hasNul fieldU8 = false ∧
      (Dirfile.get_data testEngine ⟨1⟩ fieldU8).isSome = true := by
  have h1 := (nul_field_name_panics testEngine ⟨1⟩ [0]).1 (by decide)
  have h2 := (nul_field_name_panics testEngine ⟨1⟩ fieldU8).2 (by decide)
  exact ⟨by decide, h1.2.2.1, h1.2.2.2.2.2, by decide, h2.2.2⟩
